import Mathlib

/-!
Shallow embedding of `zimmed/zimmed-core` (Python 2), covering the parts of
`core/datamodel.py`, `core/dotdict.py` and `core/enum.py` needed by the
verified claims.  Python dictionaries are modelled as association lists
(`List (String × _)`), Python exceptions as an `Err` value, and stateful
methods return a pair `Option Err × State`: an error together with the state
as left behind by the mutations performed before the exception was raised
(Python exceptions do not roll back mutations).
-/

/-- Python values handled by the data model.  A `DataModelController`
instance appearing as a value (the `value = ref` case of `update_key`) is
represented by `ctrlObj` carrying its attribute dictionary. -/
inductive PyVal where
  | none
  | int (n : Int)
  | str (s : String)
  | list (xs : List PyVal)
  | dict (entries : List (String × PyVal))
  | ctrlObj (attrs : List (String × PyVal))
  deriving Repr

/-! Structural equality on `PyVal`, modelling Python `==` on the value types
(`int`, `str`, `list`, `dict`).  For `ctrlObj` (an object) Python `==`
defaults to identity; none of the verified scenarios compares objects.
`DecidableEq` cannot be derived for this nested inductive, so the decision
procedure is written out. -/

mutual
def PyVal.beq : PyVal → PyVal → Bool
  | PyVal.none, PyVal.none => true
  | PyVal.int a, PyVal.int b => a = b
  | PyVal.str a, PyVal.str b => a = b
  | PyVal.list xs, PyVal.list ys => PyVal.beqList xs ys
  | PyVal.dict xs, PyVal.dict ys => PyVal.beqEntries xs ys
  | PyVal.ctrlObj xs, PyVal.ctrlObj ys => PyVal.beqEntries xs ys
  | _, _ => false
def PyVal.beqList : List PyVal → List PyVal → Bool
  | [], [] => true
  | x :: xs, y :: ys => PyVal.beq x y && PyVal.beqList xs ys
  | _, _ => false
def PyVal.beqEntries : List (String × PyVal) → List (String × PyVal) → Bool
  | [], [] => true
  | (k, x) :: xs, (l, y) :: ys => k = l && (PyVal.beq x y && PyVal.beqEntries xs ys)
  | _, _ => false
end

mutual
theorem PyVal.beq_iff : (a b : PyVal) → (PyVal.beq a b = true ↔ a = b)
  | PyVal.none, b => by cases b <;> simp [PyVal.beq]
  | PyVal.int a, b => by cases b <;> simp [PyVal.beq]
  | PyVal.str a, b => by cases b <;> simp [PyVal.beq]
  | PyVal.list xs, b => by
      cases b <;> simp [PyVal.beq]
      exact PyVal.beqList_iff xs _
  | PyVal.dict xs, b => by
      cases b <;> simp [PyVal.beq]
      exact PyVal.beqEntries_iff xs _
  | PyVal.ctrlObj xs, b => by
      cases b <;> simp [PyVal.beq]
      exact PyVal.beqEntries_iff xs _
theorem PyVal.beqList_iff : (xs ys : List PyVal) → (PyVal.beqList xs ys = true ↔ xs = ys)
  | [], ys => by cases ys <;> simp [PyVal.beqList]
  | x :: xs, [] => by simp [PyVal.beqList]
  | x :: xs, y :: ys => by
      simp [PyVal.beqList, PyVal.beq_iff x y, PyVal.beqList_iff xs ys]
theorem PyVal.beqEntries_iff :
    (xs ys : List (String × PyVal)) → (PyVal.beqEntries xs ys = true ↔ xs = ys)
  | [], ys => by cases ys <;> simp [PyVal.beqEntries]
  | x :: xs, [] => by simp [PyVal.beqEntries]
  | (k, x) :: xs, (l, y) :: ys => by
      simp [PyVal.beqEntries, PyVal.beq_iff x y, PyVal.beqEntries_iff xs ys]
      tauto
end

instance : DecidableEq PyVal := fun a b =>
  decidable_of_iff (PyVal.beq a b = true) (PyVal.beq_iff a b)

/-- The Python types used as type rules (`rule.type` or collection subtypes). -/
inductive PyType where
  | intT
  | strT
  | listT
  | dictT
  deriving DecidableEq, Repr

/-- Python `isinstance` restricted to the modelled types. -/
def isinstance : PyVal → PyType → Bool
  | PyVal.int _, PyType.intT => true
  | PyVal.str _, PyType.strT => true
  | PyVal.list _, PyType.listT => true
  | PyVal.dict _, PyType.dictT => true
  | _, _ => false

/-- `type.__name__` for the modelled types (used in error messages). -/
def typeName : PyType → String
  | PyType.intT => "int"
  | PyType.strT => "str"
  | PyType.listT => "list"
  | PyType.dictT => "dict"

/-- Python exceptions raised by the embedded code. `fuelExhausted` is an
artifact of the fuelled recursion used for `on_change`/`off_change` (the
Python originals can recurse unboundedly on degenerate rule sets). -/
inductive Err where
  | valueError (msg : String)
  | typeError (msg : String)
  | attributeError
  | keyError (k : String)
  | indexError
  | fuelExhausted
  deriving DecidableEq, Repr

/-- `Rule.binding`: `None`, a single attribute name, or a list of names. -/
inductive Binding where
  | none
  | one (s : String)
  | many (ss : List String)
  deriving DecidableEq, Repr

/-- Python truthiness of a binding (`if rule.binding:` / `if v.binding:`):
`None`, the empty string and the empty list are falsy. -/
def bindingTruthy : Binding → Bool
  | Binding.none => false
  | Binding.one s => s ≠ ""
  | Binding.many ss => ss ≠ []

/-- `Rule.type`: `None`, a plain type, `Collection.List(subtype)`, or
`Collection.Dict(subtype)`.  Using the bare classes `Collection.List` /
`Collection.Dict` corresponds to a `none` subtype. -/
inductive RuleTy where
  | none
  | ty (t : PyType)
  | listC (sub : Option PyType)
  | dictC (sub : Option PyType)
  deriving DecidableEq, Repr

/-- A `Rule` from `core/datamodel.py`.  `operation` with `None` in the source
defaults to `Rule.default_operation`, the identity, which is modelled by
passing `id` here. -/
structure Rule0 where
  binding : Binding
  type : RuleTy
  operation : PyVal → PyVal

/-- Association-list update with Python `dict` semantics: replacing an
existing key keeps its position, a fresh key is appended. -/
def aset {α : Type} : List (String × α) → String → α → List (String × α)
  | [], k, v => [(k, v)]
  | (k', v') :: t, k, v =>
      if k' = k then (k, v) :: t else (k', v') :: aset t k v

/-- Association-list delete with Python `del d[k]` semantics: `none` when the
key is absent (Python raises `KeyError`). -/
def adel {α : Type} : List (String × α) → String → Option (List (String × α))
  | [], _ => Option.none
  | (k', v') :: t, k =>
      if k' = k then some t
      else (adel t k).map (fun t' => (k', v') :: t')

/-- Python list indexing `xs[i]`: one round of negative-index wrapping, then
`IndexError` out of range. -/
def pyListGet {α : Type} (xs : List α) (i : Int) : Except Err α :=
  let j := if i < 0 then i + xs.length else i
  if j < 0 then Except.error Err.indexError
  else
    match xs.get? j.toNat with
    | some x => Except.ok x
    | Option.none => Except.error Err.indexError

/-- Python `list.remove(x)`: drop the first element equal to `x`; `none` when
no element matches (Python raises `ValueError`). -/
def pyRemoveFirst {α : Type} [DecidableEq α] (x : α) : List α → Option (List α)
  | [] => Option.none
  | y :: t => if y = x then some t else (pyRemoveFirst x t).map (fun t' => y :: t')

/-- Python `list.insert(i, x)`: negative indices wrap once, then the index is
clamped into `[0, len]`. -/
def pyInsert {α : Type} (i : Int) (x : α) (xs : List α) : List α :=
  let j := if i < 0 then i + xs.length else i
  let k := if j < 0 then 0 else min j.toNat xs.length
  xs.take k ++ x :: xs.drop k

/-- The collection-instruction dictionary passed to `update_key`.  A missing
`index`/`key` entry is `none` (Python raises `KeyError` on access). -/
structure Instr where
  action : String
  index : Option Int
  key : Option String
  deriving DecidableEq, Repr

/-- Lines 224-227 of `update_key`: `value = ref`, then
`value = getattr(ref, rule.binding)` when the binding is truthy.  `getattr`
with a missing attribute raises `AttributeError`; `getattr` with a list
(a multi-name binding) raises `TypeError` in Python. -/
def resolveBinding (ref : List (String × PyVal)) (b : Binding) : Except Err PyVal :=
  if bindingTruthy b then
    match b with
    | Binding.one s =>
        match List.lookup s ref with
        | some v => Except.ok v
        | Option.none => Except.error Err.attributeError
    | Binding.many _ =>
        Except.error (Err.typeError "getattr(): attribute name must be string")
    | Binding.none => Except.error Err.attributeError
  else Except.ok (PyVal.ctrlObj ref)

/-- `if subtype and not isinstance(item, subtype)` — `true` when the item
passes (no subtype, or isinstance holds). -/
def subOk (sub : Option PyType) (x : PyVal) : Bool :=
  match sub with
  | Option.none => true
  | some t => isinstance x t

/-- The validation loop of the no-instruction `Collection.List` branch
(lines 262-266): first element whose mapped value fails the subtype check
produces the `TypeError`; no mutation happens here. -/
def validateElems (op : PyVal → PyVal) (sub : Option PyType) (key : String) :
    List PyVal → Option Err
  | [] => Option.none
  | x :: t =>
      if subOk sub (op x) then validateElems op sub key t
      else some (Err.typeError ("Item of invalid type in collection: " ++ key))

/-- The no-instruction `Collection.Dict` loop (lines 291-296): for each
source entry `(k, v)`, compute `y = operation(v)`, check the subtype, and
then execute `self.__data[k] = y` — note the write goes to the *top-level*
data dictionary under the source key `k`, not under the field `key`.
On a failing element the exception propagates with the writes made so far. -/
def dictDeriveLoop (op : PyVal → PyVal) (sub : Option PyType) (key : String) :
    List (String × PyVal) → List (String × PyVal) →
      Option Err × List (String × PyVal)
  | data, [] => (Option.none, data)
  | data, (k, v) :: t =>
      let y := op v
      if subOk sub y then dictDeriveLoop op sub key (aset data k y) t
      else (some (Err.typeError ("Item of invalid type in collection: " ++ key)), data)

/-- The mutable state of a `DataModel` instance: the `__locked` flag, the
`__data` and `__rules` private dictionaries, and `extra`, the remaining
entries of the instance `__dict__` (attributes set from outside). -/
structure Model where
  locked : Bool
  data : List (String × PyVal)
  rules : List (String × Rule0)
  extra : List (String × PyVal)

/-- `Collection.List` branch of `update_key` with an instruction
(lines 236-256). -/
def listInstrStep (m : Model) (key : String) (op : PyVal → PyVal)
    (sub : Option PyType) (value : PyVal) (instr : Instr) : Option Err × Model :=
  if instr.action = "remove" then
    match instr.index with
    | Option.none => (some (Err.keyError "index"), m)
    | some i =>
      match List.lookup key m.data with
      | Option.none => (some (Err.keyError key), m)
      | some (PyVal.list xs) =>
        match pyListGet xs i with
        | Except.error e => (some e, m)
        | Except.ok item =>
          match pyRemoveFirst item xs with
          | some xs' => (Option.none, { m with data := aset m.data key (PyVal.list xs') })
          | Option.none => (some (Err.valueError "list.remove(x): x not in list"), m)
      | some _ => (some (Err.typeError "object is not subscriptable"), m)
  else if instr.action = "append" then
    match value with
    | PyVal.list vs =>
      match pyListGet vs ((vs.length : Int) - 1) with
      | Except.error e => (some e, m)
      | Except.ok last =>
        let item := op last
        if subOk sub item then
          match List.lookup key m.data with
          | Option.none => (some (Err.keyError key), m)
          | some (PyVal.list xs) =>
              (Option.none, { m with data := aset m.data key (PyVal.list (xs ++ [item])) })
          | some _ => (some Err.attributeError, m)
        else (some (Err.typeError ("Item of invalid type in collection: " ++ key)), m)
    | _ => (some (Err.typeError "object is not subscriptable"), m)
  else if instr.action = "insert" then
    match instr.index with
    | Option.none => (some (Err.keyError "index"), m)
    | some i =>
      match value with
      | PyVal.list vs =>
        match pyListGet vs i with
        | Except.error e => (some e, m)
        | Except.ok vi =>
          let item := op vi
          if subOk sub item then
            match List.lookup key m.data with
            | Option.none => (some (Err.keyError key), m)
            | some (PyVal.list xs) =>
                (Option.none, { m with data := aset m.data key (PyVal.list (pyInsert i item xs)) })
            | some _ => (some Err.attributeError, m)
          else (some (Err.typeError ("Item of invalid type in collection: " ++ key)), m)
      | _ => (some (Err.typeError "object is not subscriptable"), m)
  else
    (some (Err.valueError ("collection.list cannot handle instruction type: " ++ instr.action)), m)

/-- `Collection.Dict` branch of `update_key` with an instruction
(lines 272-284). -/
def dictInstrStep (m : Model) (key : String) (op : PyVal → PyVal)
    (sub : Option PyType) (value : PyVal) (instr : Instr) : Option Err × Model :=
  if instr.action = "remove" then
    match instr.key with
    | Option.none => (some (Err.keyError "key"), m)
    | some ik =>
      match List.lookup key m.data with
      | Option.none => (some (Err.keyError key), m)
      | some (PyVal.dict es) =>
        match adel es ik with
        | some es' => (Option.none, { m with data := aset m.data key (PyVal.dict es') })
        | Option.none => (some (Err.keyError ik), m)
      | some _ => (some (Err.typeError "object does not support item deletion"), m)
  else if instr.action = "add" then
    match instr.key with
    | Option.none => (some (Err.keyError "key"), m)
    | some ik =>
      match value with
      | PyVal.dict vs =>
        match List.lookup ik vs with
        | Option.none => (some (Err.keyError ik), m)
        | some v =>
          let item := op v
          if subOk sub item then
            match List.lookup key m.data with
            | Option.none => (some (Err.keyError key), m)
            | some (PyVal.dict es) =>
                (Option.none, { m with data := aset m.data key (PyVal.dict (aset es ik item)) })
            | some _ => (some (Err.typeError "object does not support item assignment"), m)
          else (some (Err.typeError ("Item of invalid type in collection: " ++ key)), m)
      | _ => (some (Err.typeError "object is not subscriptable"), m)
  else
    (some (Err.valueError ("collection.dict cannot handle instruction type: " ++ instr.action)), m)

/-- Dispatch on `rule.type` (lines 228-304), after the binding was resolved. -/
def updateKeyTyped (m : Model) (key : String) (rule : Rule0) (value : PyVal)
    (instruction : Option Instr) : Option Err × Model :=
  match rule.type with
  | RuleTy.none =>
      (Option.none, { m with data := aset m.data key (rule.operation value) })
  | RuleTy.ty t =>
      let v2 := rule.operation value
      if isinstance v2 t then
        (Option.none, { m with data := aset m.data key v2 })
      else
        (some (Err.typeError ("Datamodel expected value with type `" ++ typeName t ++ "` for key: " ++ key)), m)
  | RuleTy.listC sub =>
      match instruction with
      | some instr => listInstrStep m key rule.operation sub value instr
      | Option.none =>
        match value with
        | PyVal.list xs =>
          match validateElems rule.operation sub key xs with
          | some e => (some e, m)
          | Option.none =>
              (Option.none, { m with data := aset m.data key (PyVal.list (xs.map rule.operation)) })
        | _ =>
            (some (Err.typeError ("Datamodel expected value with type `list` for collection: " ++ key)), m)
  | RuleTy.dictC sub =>
      match instruction with
      | some instr => dictInstrStep m key rule.operation sub value instr
      | Option.none =>
        match value with
        | PyVal.dict es =>
          let data1 := aset m.data key (PyVal.dict [])
          let res := dictDeriveLoop rule.operation sub key data1 es
          (res.1, { m with data := res.2 })
        | _ =>
            (some (Err.typeError ("Datamodel expected value with type `dict` for collection: " ++ key)), m)

/-- `DataModel.update_key` (lines 198-306).  Returns the raised exception (if
any) together with the state of the model after the call, including mutations
performed before an exception was raised. -/
def update_key (m : Model) (ref : List (String × PyVal)) (key : String)
    (instruction : Option Instr) : Option Err × Model :=
  match List.lookup key m.rules with
  | Option.none => (some Err.attributeError, m)
  | some rule =>
    match resolveBinding ref rule.binding with
    | Except.error e => (some e, m)
    | Except.ok value => updateKeyTyped m key rule value instruction

/-- `DataModel.update_all` (lines 308-319): `update_key` for every rule in
iteration order; an exception aborts the loop but keeps earlier updates. -/
def update_all_go (ref : List (String × PyVal)) :
    Model → List (String × Rule0) → Option Err × Model
  | m, [] => (Option.none, m)
  | m, (k, _) :: t =>
      match update_key m ref k Option.none with
      | (some e, m') => (some e, m')
      | (Option.none, m') => update_all_go ref m' t

/-- `DataModel.update_all`. -/
def update_all (m : Model) (ref : List (String × PyVal)) : Option Err × Model :=
  update_all_go ref m m.rules

/-- Prefix test on character lists (used for the Python `in` substring test). -/
def listPrefixOf : List Char → List Char → Bool
  | [], _ => true
  | _ :: _, [] => false
  | x :: xs, y :: ys => x = y && listPrefixOf xs ys

/-- Contiguous-infix test on character lists. -/
def listInfixOf : List Char → List Char → Bool
  | xs, [] => xs.isEmpty
  | xs, y :: t => listPrefixOf xs (y :: t) || listInfixOf xs t

/-- Python `needle in hay` on strings: contiguous substring test. -/
def pySubstrIn (needle hay : String) : Bool :=
  listInfixOf needle.toList hay.toList

/-- The membership condition of the string branch of `update_from_binding`
(lines 349-351), evaluated left to right:
`not val.binding or val.binding in bound_attr_name or (...)`.
For a truthy string binding, `in` on a string is the *substring* test; for a
truthy list binding, `list in str` raises `TypeError` in Python before the
third disjunct is reached. -/
def ufbCondStr (r : Rule0) (name : String) : Except Err Bool :=
  if ¬ bindingTruthy r.binding then Except.ok true
  else
    match r.binding with
    | Binding.one s => Except.ok (pySubstrIn s name)
    | Binding.many _ =>
        Except.error (Err.typeError "'in <string>' requires string as left operand, not list")
    | Binding.none => Except.ok true

/-- The membership condition of the list branch of `update_from_binding`
(lines 342-344).  `val.binding in bound_attr_name` is list membership here,
and a list binding is never `==` to a string element, so no error arises. -/
def ufbCondList (r : Rule0) (names : List String) : Bool :=
  !bindingTruthy r.binding ||
    (match r.binding with
     | Binding.one s => names.contains s
     | _ => false) ||
    (match r.binding with
     | Binding.many ss => ss.any (fun x => names.contains x)
     | _ => false)

/-- Loop of the string branch of `update_from_binding` (lines 348-353).  On
an exception the key set is not observable in Python (the call raises), so
`[]` is returned in that case. -/
def ufbStrLoop (ref : List (String × PyVal)) (name : String) :
    Model → List (String × Rule0) → Option Err × Model × List String
  | m, [] => (Option.none, m, [])
  | m, (k, r) :: t =>
      match ufbCondStr r name with
      | Except.error e => (some e, m, [])
      | Except.ok false => ufbStrLoop ref name m t
      | Except.ok true =>
        match update_key m ref k Option.none with
        | (some e, m') => (some e, m', [])
        | (Option.none, m') =>
          match ufbStrLoop ref name m' t with
          | (e?, m'', ks) => (e?, m'', k :: ks)

/-- Loop of the list branch of `update_from_binding` (lines 341-346). -/
def ufbListLoop (ref : List (String × PyVal)) (names : List String) :
    Model → List (String × Rule0) → Option Err × Model × List String
  | m, [] => (Option.none, m, [])
  | m, (k, r) :: t =>
      if ufbCondList r names then
        match update_key m ref k Option.none with
        | (some e, m') => (some e, m', [])
        | (Option.none, m') =>
          match ufbListLoop ref names m' t with
          | (e?, m'', ks) => (e?, m'', k :: ks)
      else ufbListLoop ref names m t

/-- The `bound_attr_name` argument of `update_from_binding`: `None`, a single
attribute name, or a list of names. -/
inductive BoundArg where
  | noneB
  | s (name : String)
  | l (names : List String)
  deriving DecidableEq, Repr

/-- `DataModel.update_from_binding` (lines 329-354).  Returns the exception
(if any), the final model, and the `keys` set (in rule iteration order).
A falsy argument (`None`, `''`, `[]`) selects the `update_all` branch. -/
def update_from_binding (m : Model) (ref : List (String × PyVal)) :
    BoundArg → Option Err × Model × List String
  | BoundArg.noneB =>
      match update_all m ref with
      | (some e, m') => (some e, m', [])
      | (Option.none, m') => (Option.none, m', m.rules.map Prod.fst)
  | BoundArg.s name =>
      if name = "" then
        match update_all m ref with
        | (some e, m') => (some e, m', [])
        | (Option.none, m') => (Option.none, m', m.rules.map Prod.fst)
      else ufbStrLoop ref name m m.rules
  | BoundArg.l names =>
      if names = [] then
        match update_all m ref with
        | (some e, m') => (some e, m', [])
        | (Option.none, m') => (Option.none, m', m.rules.map Prod.fst)
      else ufbListLoop ref names m m.rules

/-- The attribute names found on the `DataModel` *class* by `hasattr`
(methods and properties; double-underscore methods looked up on the type are
irrelevant to `hasattr` on instances of old-style lookups modelled here).
What matters for the proofs is that `'_locked'` is not among them. -/
def modelClassAttrs : List String :=
  ["none_instance", "Null", "load", "rules", "bson_rules", "update_key",
   "update_all", "get_bindings_for_key", "update_from_binding", "iteritems",
   "iterkeys", "itervalues", "pickle"]

/-- The names in the instance `__dict__`.  `__init__` stores the private
fields under their *name-mangled* names `_DataModel__locked`,
`_DataModel__data`, `_DataModel__rules`; external assignments land in
`extra`. -/
def modelInstanceAttrs (m : Model) : List String :=
  ["_DataModel__locked", "_DataModel__data", "_DataModel__rules"] ++
    m.extra.map Prod.fst

/-- Python `hasattr` on a `DataModel` instance: instance `__dict__`, class
attributes, then the `__getattr__` fallback (line 356-360), which succeeds
exactly when the name is a key of `self.__data`. -/
def modelHasattr (m : Model) (k : String) : Bool :=
  (modelInstanceAttrs m).contains k || modelClassAttrs.contains k ||
    (List.lookup k m.data).isSome

/-- `DataModel.__setattr__` (lines 365-369): the guard is
`hasattr(self, '_locked') and self.__locked` — note the string `'_locked'`,
while the attribute written in `__init__` is mangled to
`_DataModel__locked`.  When the guard fails, `super().__setattr__` stores
the value in the instance `__dict__` (modelled by `extra`). -/
def modelSetattr (m : Model) (k : String) (v : PyVal) : Option Err × Model :=
  if modelHasattr m "_locked" && m.locked then
    (some (Err.valueError "Cannot change values from read-only proxy."), m)
  else
    (Option.none, { m with extra := aset m.extra k v })

/-- `DataModel.__setitem__` (lines 371-372): unconditional `ValueError`. -/
def modelSetitem (m : Model) (_k : String) (_v : PyVal) : Option Err × Model :=
  (some (Err.valueError "Cannot change values from read-only proxy."), m)

/-- A Python value stored in a controller attribute, as far as `on_change`
path resolution observes it: a plain value, a nested controller (by index
into the store), or a Python list of such values. -/
inductive AttrVal where
  | py (v : PyVal)
  | ctrl (id : Nat)
  | vals (xs : List AttrVal)

/-- A `DataModelController` as observed by `on_change`/`off_change`:
`rules` is the underlying model's rule set restricted to the data needed
here (field key and `Rule.binding`); `__keys` and `__bindings` are derived
from it exactly as `__init__` (lines 623-626) derives them.  `attrs` is the
controller's attribute dictionary and `listeners` the `__listeners`
dictionary, with handler functions named by numeric ids. -/
structure Ctrl where
  rules : List (String × Binding)
  attrs : List (String × AttrVal)
  listeners : List (String × List Nat)

/-- `self.__keys = [k for k in rules.iterkeys()]` (line 626). -/
def Ctrl.keys (c : Ctrl) : List String := c.rules.map Prod.fst

/-- `DataModelController.has_data_key` (lines 657-663). -/
def hasDataKey (c : Ctrl) (k : String) : Bool := c.keys.contains k

/-- `DataModelController.get_prop_for_key` (lines 641-655): key check, then
`get_bindings_for_key`, first element when the binding is a list, then
`getattr(self, attr_name)`.  `getattr(self, None)` raises `TypeError`,
`[][0]` raises `IndexError`, a missing attribute raises `AttributeError`. -/
def getPropForKey (c : Ctrl) (k : String) : Except Err AttrVal :=
  if c.keys.contains k then
    match List.lookup k c.rules with
    | some b =>
      match
        (match b with
         | Binding.one s => Except.ok s
         | Binding.many [] => Except.error Err.indexError
         | Binding.many (s :: _) => Except.ok s
         | Binding.none => Except.error (Err.typeError "attribute name must be string, not NoneType")
         : Except Err String) with
      | Except.error e => Except.error e
      | Except.ok s =>
        match List.lookup s c.attrs with
        | some a => Except.ok a
        | Option.none => Except.error Err.attributeError
    | Option.none => Except.error (Err.keyError k)
  else Except.error (Err.valueError "Key does not exist in DataModel.")

/-- `isinstance(scope, (list, set, tuple))`: the modelled values have only
Python lists (`vals`, or a plain `PyVal.list`), so the line-688 check
(list/set/tuple) and the line-698 check (list only) coincide here. -/
def asSeq : AttrVal → Option (List AttrVal)
  | AttrVal.vals xs => some xs
  | AttrVal.py (PyVal.list xs) => some (xs.map AttrVal.py)
  | _ => Option.none

/-- Method dispatch on a scope value: calling `has_data_key` /
`get_prop_for_key` / `on_change` on anything that is not a controller raises
`AttributeError`.  A dangling store index cannot arise in a well-formed
store and is mapped to `AttributeError` as well. -/
def asCtrl (st : List Ctrl) : AttrVal → Except Err Ctrl
  | AttrVal.ctrl i =>
      match st[i]? with
      | some c => Except.ok c
      | Option.none => Except.error Err.attributeError
  | _ => Except.error Err.attributeError

/-- Python `'.' in key`.  (`String.contains` is avoided because it does not
reduce definitionally.) -/
def strHasDot (s : String) : Bool := s.toList.contains '.'

/-- `key.split('.')` on character lists: splitting on every dot, keeping
empty pieces, never returning an empty list. -/
def splitCharsDot : List Char → List (List Char)
  | [] => [[]]
  | c :: t =>
      let r := splitCharsDot t
      if c = '.' then [] :: r
      else
        match r with
        | [] => [[c]]
        | h :: t2 => (c :: h) :: t2

/-- Python `key.split('.')`. -/
def pySplitDot (s : String) : List String :=
  (splitCharsDot s.toList).map (fun cs => String.mk cs)

/-- `[obj.get_prop_for_key(k) for obj in scopes]` (line 695). -/
def mapPropAll (st : List Ctrl) (k : String) : List AttrVal → Except Err (List AttrVal)
  | [] => Except.ok []
  | x :: t =>
    match asCtrl st x with
    | Except.error e => Except.error e
    | Except.ok c =>
      match getPropForKey c k with
      | Except.error e => Except.error e
      | Except.ok y =>
        match mapPropAll st k t with
        | Except.error e => Except.error e
        | Except.ok ys => Except.ok (y :: ys)

/-- One iteration of the path-resolution loop of `on_change`
(lines 686-697): when the scope is a sequence, only `scopes[0]` is checked
with `has_data_key`, then `get_prop_for_key` is mapped over all of them. -/
def resolveStep (st : List Ctrl) (scope : AttrVal) (k : String) : Except Err AttrVal :=
  match asSeq scope with
  | some xs =>
    match xs with
    | [] => Except.error Err.indexError
    | x0 :: _ =>
      match asCtrl st x0 with
      | Except.error e => Except.error e
      | Except.ok c0 =>
        if hasDataKey c0 k then
          match mapPropAll st k xs with
          | Except.error e => Except.error e
          | Except.ok ys => Except.ok (AttrVal.vals ys)
        else Except.error (Err.valueError ("Bad param supplied. No `" ++ k ++ "` property."))
  | Option.none =>
    match asCtrl st scope with
    | Except.error e => Except.error e
    | Except.ok c =>
      if hasDataKey c k then getPropForKey c k
      else Except.error (Err.valueError ("Bad param supplied. No `" ++ k ++ "` property."))

/-- The whole `for k in keys:` resolution loop of `on_change`.  It performs
no mutation; an exception aborts the call before any registration. -/
def resolvePath (st : List Ctrl) : AttrVal → List String → Except Err AttrVal
  | scope, [] => Except.ok scope
  | scope, k :: t =>
    match resolveStep st scope k with
    | Except.error e => Except.error e
    | Except.ok sc => resolvePath st sc t

/-- Listener registration (lines 703-706): create the entry when absent,
then append the handler id. -/
def addListener (c : Ctrl) (k : String) (fid : Nat) : Ctrl :=
  match List.lookup k c.listeners with
  | some fs => { c with listeners := aset c.listeners k (fs ++ [fid]) }
  | Option.none => { c with listeners := aset c.listeners k [fid] }

/-- The `key` argument of `on_change`: a string or a (possibly nested)
sequence of keys. -/
inductive KeyArg where
  | str (s : String)
  | list (ks : List KeyArg)

/-- `DataModelController.on_change` (lines 665-708), with the handler
function named by `fid`.  Returns the raised exception (if any) and the
store as left behind: registrations performed before the exception persist,
exactly as in Python.  `fuel` bounds the recursion depth (`on_change`
recurses through nested controllers and through `'*'` expansion); all
theorems below supply sufficient fuel. -/
def onChangeK : Nat → List Ctrl → Nat → KeyArg → Nat → Option Err × List Ctrl
  | 0, st, _, _, _ => (some Err.fuelExhausted, st)
  | Nat.succ fuel, st, cid, key, fid =>
    match st[cid]? with
    | Option.none => (some Err.attributeError, st)
    | some c =>
      let key1 := match key with
        | KeyArg.str s => if s = "*" then KeyArg.list (c.keys.map KeyArg.str) else key
        | _ => key
      match key1 with
      | KeyArg.list ks =>
          ks.foldl (fun acc k =>
            match acc with
            | (some e, st') => (some e, st')
            | (Option.none, st') => onChangeK fuel st' cid k fid) (Option.none, st)
      | KeyArg.str s =>
        if strHasDot s then
          match (pySplitDot s).reverse with
          | [] => (some Err.fuelExhausted, st)
          | final :: revSegs =>
            match resolvePath st (AttrVal.ctrl cid) revSegs.reverse with
            | Except.error e => (some e, st)
            | Except.ok scope =>
              match asSeq scope with
              | some xs =>
                  xs.foldl (fun acc x =>
                    match acc with
                    | (some e, st') => (some e, st')
                    | (Option.none, st') =>
                      match x with
                      | AttrVal.ctrl i => onChangeK fuel st' i (KeyArg.str final) fid
                      | _ => (some Err.attributeError, st')) (Option.none, st)
              | Option.none =>
                match scope with
                | AttrVal.ctrl i => onChangeK fuel st i (KeyArg.str final) fid
                | _ => (some Err.attributeError, st)
        else if c.keys.contains s then
          (Option.none, st.set cid (addListener c s fid))
        else
          (some (Err.valueError ("Key `" ++ s ++ "` does not exist in DataModel.")), st)

/-- The `key` argument of `off_change`. -/
inductive OffKey where
  | str (s : String)
  | list (ks : List OffKey)

/-- A truthy binding as it appears as an element of `self.__bindings`
(a string, or a list of strings).  `Binding.none` never reaches
`__bindings` (line 624 filters on truthiness); the fallback is arbitrary. -/
def bindingToOffKey : Binding → OffKey
  | Binding.one s => OffKey.str s
  | Binding.many ss => OffKey.list (ss.map OffKey.str)
  | Binding.none => OffKey.str ""

/-- `self.__bindings` as built by `__init__` (lines 622-625): the truthy
`Rule.binding` values, in rule order. -/
def Ctrl.bindingKeys (c : Ctrl) : List OffKey :=
  (c.rules.filter (fun kb => bindingTruthy kb.2)).map (fun kb => bindingToOffKey kb.2)

/-- `DataModelController.off_change` (lines 710-722).  The wildcard expands
to `self.__bindings` — the *attribute* names — not to `self.__keys`, and
`del self.__listeners[key]` raises `KeyError` when no listener is
registered under `key`.  Deletions before an exception persist. -/
def offChangeK : Nat → Ctrl → OffKey → Option Err × Ctrl
  | 0, c, _ => (some Err.fuelExhausted, c)
  | Nat.succ fuel, c, key =>
    let key1 := match key with
      | OffKey.str s => if s = "*" then OffKey.list c.bindingKeys else key
      | _ => key
    match key1 with
    | OffKey.list ks =>
        ks.foldl (fun acc k =>
          match acc with
          | (some e, c') => (some e, c')
          | (Option.none, c') => offChangeK fuel c' k) (Option.none, c)
    | OffKey.str s =>
      match adel c.listeners s with
      | some l' => (Option.none, { c with listeners := l' })
      | Option.none => (some (Err.keyError s), c)

/-- The attribute names `hasattr` can find on the `EnumInt` class (its own
methods and those inherited from `Enum`, `ImmutableDotDict`, `DotDict` and
`dict`).  What matters for the proofs is that `'_ordered_args'` is not
among them. -/
def enumIntClassAttrs : List String :=
  ["name_of", "keys", "values", "items", "get", "update", "clear", "copy",
   "pop", "popitem", "setdefault", "has_key", "fromkeys", "iteritems",
   "iterkeys", "itervalues"]

/-- An `ImmutableDotDict`-family instance: `entries` is the underlying
`dict` content, `idict` the instance `__dict__`. -/
structure IDD where
  entries : List (String × PyVal)
  idict : List (String × PyVal)

/-- Python `hasattr` on an `EnumInt` instance: instance `__dict__`, class
attributes, then `DotDict.__getattr__` (lines 18-22 of `dotdict.py`), which
succeeds exactly when the name is a key of the dictionary. -/
def IDD.hasattr (d : IDD) (k : String) : Bool :=
  (List.lookup k d.idict).isSome || enumIntClassAttrs.contains k ||
    (List.lookup k d.entries).isSome

/-- `ImmutableDotDict.__setattr__` (lines 41-45 of `dotdict.py`):
`if key not in self and hasattr(self, key): self.__dict__[key] = value`
`else: raise ValueError('Cannot assign to immutable object.')`. -/
def iddSetattr (d : IDD) (k : String) (v : PyVal) : Except Err IDD :=
  if (List.lookup k d.entries).isNone && d.hasattr k then
    Except.ok { d with idict := aset d.idict k v }
  else Except.error (Err.valueError "Cannot assign to immutable object.")

/-- `EnumInt.__init__` (lines 78-85 of `enum.py`): build
`d = dict(zip(args, range(1, len(args) + 1)))`, assign
`self._ordered_args = args` — which goes through
`ImmutableDotDict.__setattr__` on the still-empty instance — and only then
populate the backing dictionary via `super(Enum, self).__init__(d)`
(`dict.__init__`, which bypasses `__setitem__`). -/
def enumIntInit (args : List String) : Except Err IDD :=
  let d := args.zip ((List.range args.length).map (fun i => PyVal.int ((i : Int) + 1)))
  match iddSetattr { entries := [], idict := [] } "_ordered_args"
      (PyVal.list (args.map PyVal.str)) with
  | Except.error e => Except.error e
  | Except.ok st => Except.ok { st with entries := d }


/-! ### Concrete rule sets, models and controllers used in the theorems below -/

/-- A locked model with one `str`-typed field, as produced by
`DataModelController.new` for the default `uid` rule. -/
def c1model : Model :=
  { locked := true
    data := [("uid", PyVal.str "u1")]
    rules := [("uid", ⟨Binding.one "uid", RuleTy.ty PyType.strT, id⟩)]
    extra := [] }

def c2model : Model :=
  { locked := true
    data := [("f", PyVal.dict [("old", PyVal.int 0)]), ("g", PyVal.int 1)]
    rules := [("f", ⟨Binding.one "src", RuleTy.dictC Option.none, id⟩),
              ("g", ⟨Binding.one "g0", RuleTy.none, id⟩)]
    extra := [] }

def c2ref : List (String × PyVal) := [("src", PyVal.dict [("g", PyVal.int 99)])]

def c3model : Model :=
  { locked := true
    data := [("f", PyVal.dict [("a", PyVal.int 1)])]
    rules := [("f", ⟨Binding.one "src", RuleTy.dictC (some PyType.intT), id⟩)]
    extra := [] }

def c3ref : List (String × PyVal) := [("src", PyVal.dict [("b", PyVal.str "bad")])]

def c3wmodel : Model :=
  { locked := true
    data := [("f", PyVal.list [PyVal.int 1])]
    rules := [("f", ⟨Binding.one "src", RuleTy.listC (some PyType.intT), id⟩)]
    extra := [] }

def c3wref : List (String × PyVal) := [("src", PyVal.list [PyVal.str "bad"])]

def c4model : Model :=
  { locked := true
    data := []
    rules := [("f", ⟨Binding.many ["a", "b"], RuleTy.none, id⟩)]
    extra := [] }

def c4ref : List (String × PyVal) := [("a", PyVal.int 1), ("b", PyVal.int 2)]

def c9model : Model :=
  { locked := true
    data := []
    rules := [("f", ⟨Binding.one "a", RuleTy.none, id⟩)]
    extra := [] }

def c6model : Model :=
  { locked := true
    data := [("f", PyVal.list [PyVal.int 1, PyVal.int 2])]
    rules := [("f", ⟨Binding.one "src", RuleTy.listC Option.none, id⟩)]
    extra := [] }

def c6ref : List (String × PyVal) := [("src", PyVal.list [PyVal.int 1])]

def c6wmodel : Model :=
  { locked := true
    data := [("f", PyVal.list [PyVal.int 5])]
    rules := [("f", ⟨Binding.one "src", RuleTy.listC Option.none, id⟩)]
    extra := [] }

def c6wref : List (String × PyVal) := [("src", PyVal.list [PyVal.int 7])]

/-- The effective membership test of the string branch of
`update_from_binding` when it does not raise: falsy binding, or single-name
binding that is a *substring* of the attribute name. -/
def ufbMatchStr (b : Binding) (name : String) : Bool :=
  !bindingTruthy b ||
    (match b with
     | Binding.one s => pySubstrIn s name
     | _ => false)

def c5model : Model :=
  { locked := true
    data := []
    rules := [("f", ⟨Binding.one "a", RuleTy.none, id⟩)]
    extra := [] }

def c5wmodel : Model :=
  { locked := true
    data := []
    rules := [("f1", ⟨Binding.one "ab", RuleTy.none, id⟩),
              ("f2", ⟨Binding.one "x", RuleTy.none, id⟩),
              ("f3", ⟨Binding.none, RuleTy.none, id⟩)]
    extra := [] }

def c5wref : List (String × PyVal) := [("ab", PyVal.int 4)]

def c7ctrl : Ctrl :=
  { rules := [("uid", Binding.one "uid"), ("_collection", Binding.none)]
    attrs := [("uid", AttrVal.py (PyVal.str "u1"))]
    listeners := [("_collection", [3])] }

def c8root : Ctrl :=
  { rules := [("subs", Binding.one "subs")]
    attrs := [("subs", AttrVal.vals [AttrVal.ctrl 1, AttrVal.ctrl 2])]
    listeners := [] }

def c8child1 : Ctrl :=
  { rules := [("x", Binding.one "x")]
    attrs := [("x", AttrVal.py (PyVal.int 0))]
    listeners := [] }

def c8child2 : Ctrl :=
  { rules := [("y", Binding.one "y")]
    attrs := []
    listeners := [] }

/-- `True` when resolving the intermediate path segments either fails or
produces a single (non-sequence) scope value. -/
def scopeSingleOrErr (st : List Ctrl) (cid : Nat) (segs : List String) : Bool :=
  match resolvePath st (AttrVal.ctrl cid) segs with
  | Except.error _ => true
  | Except.ok x => (asSeq x).isNone

def c8wroot : Ctrl :=
  { rules := [("sub", Binding.one "sub")]
    attrs := [("sub", AttrVal.ctrl 1)]
    listeners := [] }

def c8wchild : Ctrl :=
  { rules := [("y", Binding.one "y")]
    attrs := []
    listeners := [] }

/-! ### Theorems -/

theorem lookup_aset_self {α : Type} (l : List (String × α)) (k : String) (v : α) :
    List.lookup k (aset l k v) = some v := by
  induction l with
  | nil => simp [aset, List.lookup]
  | cons h t ih =>
    obtain ⟨k', v'⟩ := h
    by_cases hk : k' = k
    · subst hk; simp [aset, List.lookup]
    · have hkk : (k == k') = false := by
        simp only [beq_eq_false_iff_ne]
        exact Ne.symm hk
      simp [aset, hk, List.lookup, hkk, ih]

theorem pyListGet_append_length {α : Type} (xs : List α) (a : α) :
    pyListGet (xs ++ [a]) (xs.length : Int) = Except.ok a := by
  have h0 : ¬ ((xs.length : Int) < 0) := by omega
  have h2 : ((xs.length : Int)).toNat = xs.length := by omega
  simp only [pyListGet, h0, if_false, if_neg h0, h2]
  rw [List.get?_eq_getElem?, List.getElem?_concat_length]

theorem pyListGet_last {α : Type} (xs : List α) (h : xs ≠ []) :
    pyListGet xs ((xs.length : Int) - 1) = Except.ok (xs.getLast h) := by
  have hlen : 1 ≤ xs.length := List.length_pos.mpr h
  have h1 : ¬ ((xs.length : Int) - 1 < 0) := by omega
  have h2 : ((xs.length : Int) - 1).toNat = xs.length - 1 := by omega
  have h3 : xs.length - 1 < xs.length := by omega
  simp [pyListGet, h1, h2, List.get?_eq_getElem?, List.getElem?_eq_getElem h3,
    List.getLast_eq_getElem]

theorem pyRemoveFirst_append_self {α : Type} [DecidableEq α] (xs : List α) (a : α)
    (h : a ∉ xs) : pyRemoveFirst a (xs ++ [a]) = some xs := by
  induction xs with
  | nil => simp [pyRemoveFirst]
  | cons y t ih =>
    have hy : y ≠ a := fun he => h (he ▸ List.mem_cons_self y t)
    have ht : a ∉ t := fun hm => h (List.mem_cons_of_mem y hm)
    simp [pyRemoveFirst, hy, ih ht]

/-- C1: the claim says every external write attempt raises the
immutable-write error.  The code's guard tests `hasattr(self, '_locked')`,
but `__init__` stores the flag under the mangled name `_DataModel__locked`,
so attribute-style assignment *silently succeeds* — on a declared field and
on an undeclared one alike — while indexed-style assignment does raise.
The claim therefore fails on the code; the class's own usage docstring
(line 503) documents the `ValueError` the guard was meant to raise. -/
theorem C1_attribute_write_not_rejected :
    (modelSetattr c1model "uid" (PyVal.int 5)).1 = Option.none ∧
    (modelSetattr c1model "foo" (PyVal.int 5)).1 = Option.none ∧
    (modelSetattr c1model "uid" (PyVal.int 5)).2.extra = [("uid", PyVal.int 5)] ∧
    (modelSetitem c1model "uid" (PyVal.int 5)).1 =
      some (Err.valueError "Cannot change values from read-only proxy.") :=
  ⟨rfl, rfl, rfl, rfl⟩

/-- C2: the claim says the entire derived map becomes the stored value of
the keyed-map field and no other field is written.  The code executes
`self.__data[key] = {}` and then `self.__data[k] = y` for each source key
`k` — writing the *top-level* data dictionary.  Here field `f` (bound to a
source map `{"g": 99}`) ends up stored as `{}`, and the sibling field `g`
is overwritten with `99`. -/
theorem C2_dict_derivation_writes_top_level :
    (update_key c2model c2ref "f" Option.none).1 = Option.none ∧
    (update_key c2model c2ref "f" Option.none).2.data =
      [("f", PyVal.dict []), ("g", PyVal.int 99)] :=
  ⟨rfl, rfl⟩

/-- C3 amended: for an *ordered-sequence* (`Collection.List`) field, a
failed full (no-instruction) re-derivation leaves the model unchanged: the
value-shape check and the per-element validation loop both run before the
single assignment to the stored value. -/
theorem C3_list_full_derivation_atomic (m : Model) (ref : List (String × PyVal))
    (key : String) (r : Rule0) (sub : Option PyType) (e : Err)
    (hr : List.lookup key m.rules = some r)
    (hty : r.type = RuleTy.listC sub)
    (herr : (update_key m ref key Option.none).1 = some e) :
    (update_key m ref key Option.none).2 = m := by
  simp only [update_key, hr] at herr ⊢
  cases hres : resolveBinding ref r.binding with
  | error e' => simp [hres]
  | ok v =>
    simp only [hres] at herr ⊢
    simp only [updateKeyTyped, hty] at herr ⊢
    cases v
    case list xs =>
      dsimp only at herr ⊢
      cases hval : validateElems r.operation sub key xs with
      | none =>
          rw [hval] at herr
          simp at herr
      | some e2 => simp [hval]
    all_goals simp

/-- C3 counterexample: the claim quantifies over *every* collection-typed
field, but for a keyed-map (`Collection.Dict`) field the code assigns
`self.__data[key] = {}` *before* validating the elements, so a
type-mismatch failure leaves the field's stored value replaced by the empty
map instead of the previous value. -/
theorem C3_counterexample_dict_replaced_before_error :
    List.lookup "f" c3model.data = some (PyVal.dict [("a", PyVal.int 1)]) ∧
    (update_key c3model c3ref "f" Option.none).1 =
      some (Err.typeError "Item of invalid type in collection: f") ∧
    List.lookup "f" (update_key c3model c3ref "f" Option.none).2.data =
      some (PyVal.dict []) :=
  ⟨rfl, rfl, rfl⟩

/-- Witness for `C3_list_full_derivation_atomic` at a concrete failing
re-derivation. -/
theorem C3_list_full_derivation_atomic_witness :
    (update_key c3wmodel c3wref "f" Option.none).2 = c3wmodel :=
  C3_list_full_derivation_atomic c3wmodel c3wref "f"
    ⟨Binding.one "src", RuleTy.listC (some PyType.intT), id⟩ (some PyType.intT)
    (Err.typeError "Item of invalid type in collection: f") rfl rfl rfl

/-- C4: the claim says a multi-name binding resolves to the ordered list of
the named attributes' values.  The code executes
`getattr(ref, rule.binding)` with the *list itself* as the attribute name,
which raises `TypeError` — even when every named attribute exists — so the
transform is never called and nothing is stored. -/
theorem C4_multi_binding_raises_type_error :
    update_key c4model c4ref "f" Option.none =
      (some (Err.typeError "getattr(): attribute name must be string"), c4model) :=
  rfl

/-- C9: for a rule with no type constraint, once the binding resolves,
`update_key` raises nothing and stores exactly `operation(value)`
(line 304). -/
theorem C9_no_constraint_stores_transform (m : Model) (ref : List (String × PyVal))
    (key : String) (r : Rule0) (src : PyVal)
    (hr : List.lookup key m.rules = some r)
    (hty : r.type = RuleTy.none)
    (hres : resolveBinding ref r.binding = Except.ok src) :
    update_key m ref key Option.none =
      (Option.none, { m with data := aset m.data key (r.operation src) }) := by
  simp [update_key, hr, hres, updateKeyTyped, hty]

/-- Witness for `C9_no_constraint_stores_transform` at a concrete input. -/
theorem C9_no_constraint_stores_transform_witness :
    update_key c9model [("a", PyVal.int 7)] "f" Option.none =
      (Option.none, { c9model with data := aset c9model.data "f" (PyVal.int 7) }) :=
  C9_no_constraint_stores_transform c9model [("a", PyVal.int 7)] "f"
    ⟨Binding.one "a", RuleTy.none, id⟩ (PyVal.int 7) rfl rfl rfl

/-- C6 amended, general form: on an ordered-sequence field storing `xs`, an
`append` instruction (which appends `operation` of the *last element of the
bound value*) followed by a `remove` instruction at index `N = xs.length`
restores the stored sequence — *provided the appended element does not
already occur in `xs`*, because the remove branch executes
`self.__data[key].remove(item)`, which deletes the first element `==` to
`item`, not the element at the given index. -/
theorem C6_append_remove_restores (m : Model) (ref : List (String × PyVal))
    (key : String) (r : Rule0) (sub : Option PyType) (xs vs : List PyVal)
    (hvs : vs ≠ [])
    (hr : List.lookup key m.rules = some r)
    (hty : r.type = RuleTy.listC sub)
    (hres : resolveBinding ref r.binding = Except.ok (PyVal.list vs))
    (hdata : List.lookup key m.data = some (PyVal.list xs))
    (hsub : subOk sub (r.operation (vs.getLast hvs)) = true)
    (hfresh : r.operation (vs.getLast hvs) ∉ xs) :
    (update_key m ref key (some ⟨"append", Option.none, Option.none⟩)).1 = Option.none ∧
    (update_key (update_key m ref key (some ⟨"append", Option.none, Option.none⟩)).2
        ref key (some ⟨"remove", some (xs.length : Int), Option.none⟩)).1 = Option.none ∧
    List.lookup key
      (update_key (update_key m ref key (some ⟨"append", Option.none, Option.none⟩)).2
          ref key (some ⟨"remove", some (xs.length : Int), Option.none⟩)).2.data =
      some (PyVal.list xs) := by
  have h1 : update_key m ref key (some ⟨"append", Option.none, Option.none⟩) =
      (Option.none, { m with data := aset m.data key (PyVal.list (xs ++ [r.operation (vs.getLast hvs)])) }) := by
    simp [update_key, hr, hres, updateKeyTyped, hty, listInstrStep,
      pyListGet_last vs hvs, hsub, hdata]
  have h2 : update_key
      { m with data := aset m.data key (PyVal.list (xs ++ [r.operation (vs.getLast hvs)])) }
      ref key (some ⟨"remove", some (xs.length : Int), Option.none⟩) =
      (Option.none, { m with data := aset (aset m.data key (PyVal.list (xs ++ [r.operation (vs.getLast hvs)]))) key (PyVal.list xs) }) := by
    simp [update_key, hr, hres, updateKeyTyped, hty, listInstrStep,
      lookup_aset_self, pyListGet_append_length,
      pyRemoveFirst_append_self xs _ hfresh]
  rw [h1, h2]
  exact ⟨rfl, rfl, lookup_aset_self _ _ _⟩

/-- C6 counterexample: the stored sequence `[1, 2]` contains a duplicate of
the appended element `1`.  Append makes the stored value `[1, 2, 1]`;
`remove` at index `N = 2` looks up `item = 1` and then `.remove(item)`
deletes the *first* `1`, leaving `[2, 1] ≠ [1, 2]`.  So with duplicates the
append-then-remove round trip fails, and `remove` does not remove the
element stored at the given index. -/
theorem C6_counterexample_duplicate_element :
    List.lookup "f" c6model.data = some (PyVal.list [PyVal.int 1, PyVal.int 2]) ∧
    (update_key c6model c6ref "f" (some ⟨"append", Option.none, Option.none⟩)).1 =
      Option.none ∧
    (update_key (update_key c6model c6ref "f"
        (some ⟨"append", Option.none, Option.none⟩)).2
        c6ref "f" (some ⟨"remove", some 2, Option.none⟩)).1 = Option.none ∧
    List.lookup "f" (update_key (update_key c6model c6ref "f"
        (some ⟨"append", Option.none, Option.none⟩)).2
        c6ref "f" (some ⟨"remove", some 2, Option.none⟩)).2.data =
      some (PyVal.list [PyVal.int 2, PyVal.int 1]) ∧
    PyVal.list [PyVal.int 2, PyVal.int 1] ≠ PyVal.list [PyVal.int 1, PyVal.int 2] :=
  ⟨rfl, rfl, rfl, rfl, by decide⟩

/-- Witness for `C6_append_remove_restores` at a concrete input. -/
theorem C6_append_remove_restores_witness :
    (update_key c6wmodel c6wref "f" (some ⟨"append", Option.none, Option.none⟩)).1 =
      Option.none ∧
    (update_key (update_key c6wmodel c6wref "f"
        (some ⟨"append", Option.none, Option.none⟩)).2
        c6wref "f" (some ⟨"remove", some 1, Option.none⟩)).1 = Option.none ∧
    List.lookup "f" (update_key (update_key c6wmodel c6wref "f"
        (some ⟨"append", Option.none, Option.none⟩)).2
        c6wref "f" (some ⟨"remove", some 1, Option.none⟩)).2.data =
      some (PyVal.list [PyVal.int 5]) :=
  C6_append_remove_restores c6wmodel c6wref "f"
    ⟨Binding.one "src", RuleTy.listC Option.none, id⟩ Option.none
    [PyVal.int 5] [PyVal.int 7] (by decide) rfl rfl rfl rfl rfl (by decide)

theorem ufbCondStr_ok (r : Rule0) (name : String) (b : Bool)
    (h : ufbCondStr r name = Except.ok b) : b = ufbMatchStr r.binding name := by
  cases hb : r.binding with
  | none =>
      simp [ufbCondStr, hb, bindingTruthy, ufbMatchStr] at h ⊢
      exact h
  | one s =>
      by_cases hs : s = ""
      · subst hs
        simp [ufbCondStr, hb, bindingTruthy, ufbMatchStr] at h ⊢
        exact h
      · simp [ufbCondStr, hb, bindingTruthy, hs, ufbMatchStr] at h ⊢
        exact h.symm
  | many ss =>
      cases ss with
      | nil =>
          simp [ufbCondStr, hb, bindingTruthy, ufbMatchStr] at h ⊢
          exact h
      | cons a t =>
          simp [ufbCondStr, hb, bindingTruthy] at h

theorem ufbStrLoop_keys (ref : List (String × PyVal)) (name : String) :
    ∀ (rules : List (String × Rule0)) (m : Model),
      (ufbStrLoop ref name m rules).1 = Option.none →
      (ufbStrLoop ref name m rules).2.2 =
        (rules.filter (fun kr => ufbMatchStr kr.2.binding name)).map Prod.fst
  | [], m, _ => by simp [ufbStrLoop]
  | (k, r) :: t, m, hok => by
      cases hc : ufbCondStr r name with
      | error e =>
          rw [ufbStrLoop, hc] at hok
          simp at hok
      | ok b =>
        have hbm := (ufbCondStr_ok r name b hc).symm
        cases b with
        | false =>
            rw [ufbStrLoop, hc] at hok ⊢
            rw [List.filter_cons, if_neg (by simp [hbm])]
            exact ufbStrLoop_keys ref name t m hok
        | true =>
            rw [ufbStrLoop, hc] at hok ⊢
            dsimp only at hok ⊢
            rcases hins : update_key m ref k Option.none with ⟨e?, m'⟩
            rw [hins] at hok
            cases e? with
            | some e2 => simp at hok
            | none =>
              dsimp only at hok ⊢
              have ih := ufbStrLoop_keys ref name t m' hok
              rw [List.filter_cons, if_pos (by simp [hbm])]
              simp [ih]

/-- C5 amended: when `update_from_binding` is called with a single (truthy)
attribute name and raises nothing, the returned key set consists of exactly
the fields whose binding is falsy together with the fields whose
*single-name binding is a contiguous substring* of the given name (Python's
`in` on strings) — exact equality is not required.  A field with a
(truthy) multi-name binding makes the call raise `TypeError`
(`list in str`), which the no-exception hypothesis rules out. -/
theorem C5_substring_matching (m : Model) (ref : List (String × PyVal)) (name : String)
    (hname : name ≠ "")
    (hok : (update_from_binding m ref (BoundArg.s name)).1 = Option.none) :
    (update_from_binding m ref (BoundArg.s name)).2.2 =
      (m.rules.filter (fun kr => ufbMatchStr kr.2.binding name)).map Prod.fst := by
  rw [update_from_binding, if_neg hname] at hok ⊢
  exact ufbStrLoop_keys ref name m.rules m hok

/-- C5 counterexample: the field `f` is bound to attribute `"a"`, and
`update_from_binding` is called with attribute name `"ab"`.  Because the
code tests `val.binding in bound_attr_name` — a substring test on strings —
`f` *is* included although its binding `"a"` is a different attribute name
than `"ab"`, contradicting the exact-match claim. -/
theorem C5_counterexample_substring_inclusion :
    (update_from_binding c5model [("a", PyVal.int 1)] (BoundArg.s "ab")).1 =
      Option.none ∧
    (update_from_binding c5model [("a", PyVal.int 1)] (BoundArg.s "ab")).2.2 = ["f"] ∧
    ("a" : String) ≠ "ab" :=
  ⟨rfl, rfl, by decide⟩

/-- Witness for `C5_substring_matching` at a concrete input: for name
`"abc"`, field `f1` (binding `"ab"`, a substring) and root-bound `f3` are
included, `f2` (binding `"x"`) is not. -/
theorem C5_substring_matching_witness :
    (update_from_binding c5wmodel c5wref (BoundArg.s "abc")).2.2 = ["f1", "f3"] :=
  C5_substring_matching c5wmodel c5wref "abc" (by decide) rfl

/-- C7: the second half of the claim holds — unregistering a specific field
with no registrations raises (`del self.__listeners[key]` → `KeyError`) —
but the wildcard half fails: `off_change('*')` iterates `self.__bindings`
(the bound *attribute* names) instead of the field keys, so on the default
rule set (`uid` bound to `uid`, `_collection` bound to `None`) it raises
`KeyError('uid')` and the listener registered for `_collection` survives. -/
theorem C7_wildcard_off_change_keyerror :
    (offChangeK 5 c7ctrl (OffKey.str "*")).1 = some (Err.keyError "uid") ∧
    (offChangeK 5 c7ctrl (OffKey.str "*")).2.listeners = [("_collection", [3])] ∧
    (offChangeK 5 c7ctrl (OffKey.str "_collection")).1 = Option.none ∧
    (offChangeK 5 c7ctrl (OffKey.str "uid")).1 = some (Err.keyError "uid") :=
  ⟨rfl, rfl, rfl, rfl⟩

/-- C10: constructing an `EnumInt` always raises
`ValueError('Cannot assign to immutable object.')`: the assignment
`self._ordered_args = args` runs on the still-empty instance, where
`'_ordered_args'` is neither an existing key nor an existing attribute, so
`ImmutableDotDict.__setattr__` rejects it before the backing dictionary is
populated. -/
theorem C10_enumint_init_raises (args : List String) (_h : args ≠ []) :
    enumIntInit args =
      Except.error (Err.valueError "Cannot assign to immutable object.") := rfl

/-- Witness for `C10_enumint_init_raises` at a concrete argument list. -/
theorem C10_enumint_init_raises_witness :
    enumIntInit ["One", "Two"] =
      Except.error (Err.valueError "Cannot assign to immutable object.") :=
  C10_enumint_init_raises ["One", "Two"] (by decide)

/-- C8 counterexample: registering `"subs.x"` where `subs` resolves to a
list of two nested controllers, of which only the first declares `x`.  The
final loop `for s in scope: s.on_change(final_key, ...)` registers the
listener on the first controller and *then* raises on the second — so the
call errors, yet a listener has been registered: registration partially
applies, contradicting the claim. -/
theorem C8_counterexample_partial_registration :
    (onChangeK 5 [c8root, c8child1, c8child2] 0 (KeyArg.str "subs.x") 7).1 =
      some (Err.valueError "Key `x` does not exist in DataModel.") ∧
    (onChangeK 5 [c8root, c8child1, c8child2] 0 (KeyArg.str "subs.x") 7).2.map
        Ctrl.listeners = [[], [("x", [7])], []] :=
  ⟨rfl, rfl⟩

/-- Helper: a dot-free, non-wildcard key registers atomically — on error the
store is unchanged. -/
theorem onChangeK_plain_err (fuel : Nat) (st : List Ctrl) (cid fid : Nat)
    (s : String) (hs : strHasDot s = false) (hstar : s ≠ "*") (e : Err)
    (herr : (onChangeK (fuel + 1) st cid (KeyArg.str s) fid).1 = some e) :
    (onChangeK (fuel + 1) st cid (KeyArg.str s) fid).2 = st := by
  cases hc : st[cid]? with
  | none => simp [onChangeK, hc]
  | some c =>
    have hred : onChangeK (fuel + 1) st cid (KeyArg.str s) fid =
        if s ∈ c.keys then (Option.none, st.set cid (addListener c s fid))
        else (some (Err.valueError ("Key `" ++ s ++ "` does not exist in DataModel.")), st) := by
      simp only [onChangeK, hc]
      rw [if_neg hstar]
      simp [hs]
    rw [hred] at herr ⊢
    by_cases hk : s ∈ c.keys
    · simp [hk] at herr
    · simp [hk]

/-- C8 amended: dot-path registration resolves the intermediate segments
without mutating anything, so when the resolution fails, or resolves to a
*single* controller scope on which the (dot-free, non-wildcard) final
segment is undeclared, the call raises and no listener is registered on any
controller.  (The counterexample shows the remaining case — a final scope
that is a *list* of controllers — can partially apply.) -/
theorem C8_single_scope_registration_atomic (fuel : Nat) (st : List Ctrl)
    (cid fid : Nat) (s final : String) (revSegs : List String) (e : Err)
    (hdot : strHasDot s = true)
    (hsplit : (pySplitDot s).reverse = final :: revSegs)
    (hstar : final ≠ "*")
    (hfd : strHasDot final = false)
    (hsingle : scopeSingleOrErr st cid revSegs.reverse = true)
    (herr : (onChangeK (fuel + 2) st cid (KeyArg.str s) fid).1 = some e) :
    (onChangeK (fuel + 2) st cid (KeyArg.str s) fid).2 = st := by
  have hsstar : s ≠ "*" := by
    intro hh
    rw [hh] at hdot
    exact absurd hdot (by decide)
  cases hc : st[cid]? with
  | none => simp [onChangeK, hc]
  | some c =>
    have hred : onChangeK (fuel + 2) st cid (KeyArg.str s) fid =
        (match resolvePath st (AttrVal.ctrl cid) revSegs.reverse with
         | Except.error e2 => (some e2, st)
         | Except.ok scope =>
           match asSeq scope with
           | some xs =>
               xs.foldl (fun acc x =>
                 match acc with
                 | (some e3, st') => (some e3, st')
                 | (Option.none, st') =>
                   match x with
                   | AttrVal.ctrl i => onChangeK (fuel + 1) st' i (KeyArg.str final) fid
                   | _ => (some Err.attributeError, st')) (Option.none, st)
           | Option.none =>
             match scope with
             | AttrVal.ctrl i => onChangeK (fuel + 1) st i (KeyArg.str final) fid
             | _ => (some Err.attributeError, st)) := by
      simp only [onChangeK, hc]
      rw [if_neg hsstar]
      simp only [hdot, if_true, hsplit]
    rw [hred] at herr ⊢
    cases hres : resolvePath st (AttrVal.ctrl cid) revSegs.reverse with
    | error e2 => simp [hres] at herr ⊢
    | ok x =>
      have hseq : asSeq x = Option.none := by
        unfold scopeSingleOrErr at hsingle
        rw [hres] at hsingle
        dsimp only at hsingle
        exact Option.isNone_iff_eq_none.mp hsingle
      simp only [hres, hseq] at herr ⊢
      cases x with
      | ctrl i =>
          dsimp only at herr ⊢
          exact onChangeK_plain_err fuel st i fid final hfd hstar e herr
      | py v => simp
      | vals xs => simp [asSeq] at hseq

/-- Witness for `C8_single_scope_registration_atomic` at a concrete input:
path `"sub.x"` resolves to the single nested controller, which does not
declare `x`; the call raises and the store is unchanged. -/
theorem C8_single_scope_registration_atomic_witness :
    (onChangeK 2 [c8wroot, c8wchild] 0 (KeyArg.str "sub.x") 5).2 =
      [c8wroot, c8wchild] :=
  C8_single_scope_registration_atomic 0 [c8wroot, c8wchild] 0 5 "sub.x" "x" ["sub"]
    (Err.valueError "Key `x` does not exist in DataModel.")
    (by decide) (by decide) (by decide) (by decide) rfl rfl
